import Mathlib

/-!
# Render-thread controller of `mod_egl.cpp`

A shallow embedding of the `Renderer` class of
`app/src/main/cpp/mod_egl.cpp`: the single-slot command cell written by
`setWindow` / `stop`, the body of `renderLoop`, `step`, `initialize`,
`destroy` and `drawFrame`.

* Pointers (`EGLDisplay`, `EGLSurface`, `EGLContext`, `ANativeWindow*`) are
  natural numbers, `0` being the null pointer.
* `GLfloat` is an arbitrary type `F` carrying the operations the source uses
  (`+`, `*`, `/`, unary `-`, conversion from `int`, decimal literals), so no
  theorem depends on a particular rounding behaviour.
* The results of the EGL calls are inputs (`EglOutcome`, `swapOk`).
* Every method returns, next to the new state, the list of calls it made
  (`Event`), in program order.
-/

namespace ModEgl

/-- A pointer-valued handle; `0` is the null pointer. -/
abbrev Handle := Nat

/-- The sentinel `EGL_NO_DISPLAY` of `EGL/egl.h`, a null `EGLDisplay`; the
constructor's `display(0)` and the test `if (display)` use the same value. -/
def EGL_NO_DISPLAY : Handle := 0

/-- The sentinel `EGL_NO_SURFACE` of `EGL/egl.h`, a null `EGLSurface`. -/
def EGL_NO_SURFACE : Handle := 0

/-- The sentinel `EGL_NO_CONTEXT` of `EGL/egl.h`, a null `EGLContext`. -/
def EGL_NO_CONTEXT : Handle := 0

/-- Modelled from the spec: the command tag of the cell `_msg`, whose `enum` is
declared in the absent `mod_egl.h`. The three values are the ones the source
names (`None`, `WindowChanged`, `ShutdownRequested` in the spec). -/
inductive RenderThreadMessage where
  | MSG_NONE
  | MSG_WINDOW_SET
  | MSG_RENDER_LOOP_EXIT
  deriving DecidableEq, Repr

open RenderThreadMessage

/-- The EGL calls whose failure is reported through `LOG_E`. -/
inductive EglCall where
  | eglGetDisplay
  | eglInitialize
  | eglChooseConfig
  | eglGetConfigAttrib
  | eglCreateWindowSurface
  | eglCreateContext
  | eglMakeCurrent
  | eglQuerySurface
  | eglSwapBuffers
  deriving DecidableEq, Repr

/-- The attribute asked of `eglQuerySurface`. -/
inductive SurfaceAttr where
  | EGL_WIDTH
  | EGL_HEIGHT
  deriving DecidableEq, Repr

/-- The OpenGL ES calls of `initialize` and `drawFrame`, with the arguments
the source passes. -/
inductive GlCall (F : Type) where
  | glDisable_DITHER
  | glHint_PERSPECTIVE_FASTEST
  | glClearColor (r g b a : Int)
  | glEnable_CULL_FACE
  | glShadeModel_SMOOTH
  | glEnable_DEPTH_TEST
  | glViewport (x y w h : Int)
  | glMatrixMode_PROJECTION
  | glMatrixMode_MODELVIEW
  | glLoadIdentity
  | glFrustumf (l r : F) (b t n f : Int)
  | glClear_COLOR_DEPTH
  | glTranslatef (x y : Int) (z : F)
  | glRotatef (angle : F) (x y z : Int)
  | glEnableClientState_VERTEX_ARRAY
  | glEnableClientState_COLOR_ARRAY
  | glFrontFace_CW
  | glVertexPointer
  | glColorPointer
  | glDrawElements (count : Nat)
  deriving DecidableEq, Repr

/-- One observable action of the worker thread. -/
inductive Event (F : Type) where
  | mutexLock
  | mutexUnlock
  | callInitialize
  | callDestroy
  | callDrawFrame
  | eglGetDisplay
  | eglInitialize (d : Handle)
  | eglChooseConfig (d : Handle)
  | eglGetConfigAttrib (d : Handle) (config : Nat)
  | setBuffersGeometry (window : Handle) (format : Int)
  | eglCreateWindowSurface (d : Handle) (config : Nat) (window : Handle)
  | eglCreateContext (d : Handle) (config : Nat)
  | eglMakeCurrent (d draw read ctx : Handle)
  | eglQuerySurface (d s : Handle) (attr : SurfaceAttr)
  | xmit (d s c : Handle)
  | gl (c : GlCall F)
  | eglDestroyContext (d c : Handle)
  | eglDestroySurface (d s : Handle)
  | eglTerminate (d : Handle)
  | eglSwapBuffers (d s : Handle)
  | logError (c : EglCall)
  deriving DecidableEq, Repr

/-- The fields of `Renderer` that the render loop reads or writes. The mutex
and the thread id are not data: locking shows as events, the other thread as
the publishes of an `IterInput`. -/
structure Renderer (F : Type) where
  _msg : RenderThreadMessage
  window : Handle
  display : Handle
  surface : Handle
  context : Handle
  _angle : F
  renderingEnabled : Bool
  deriving DecidableEq, Repr

/-- What the EGL implementation answers during one run of `initialize`. An
`Option` is `none` when the call returns `EGL_FALSE`, otherwise the value it
wrote through its out-parameter. -/
structure EglOutcome where
  getDisplay : Handle
  initializeOk : Bool
  chooseConfig : Option Nat
  getConfigAttrib : Option Int
  createWindowSurface : Handle
  createContext : Handle
  makeCurrentOk : Bool
  queryWidth : Option Int
  queryHeight : Option Int
  deriving DecidableEq, Repr

section Model

variable {F : Type} [Add F] [Mul F] [Div F] [Neg F] [IntCast F] [OfScientific F]

/-- `Renderer::Renderer()`: `_msg(MSG_NONE), display(0), surface(0), context(0),
_angle(0)`. `window` and `renderingEnabled` are not set by the constructor; the
values they start with are parameters. -/
def Renderer.new (window0 : Handle) (renderingEnabled0 : Bool) : Renderer F :=
  { _msg := MSG_NONE, window := window0, display := 0, surface := 0, context := 0,
    _angle := ((0 : Int) : F), renderingEnabled := renderingEnabled0 }

/-- `Renderer::start()`: creates the worker thread; no field is written. The
result is the state the worker's `renderLoop` starts from. -/
def start (s : Renderer F) : Renderer F := s

/-- `Renderer::stop()`, its write to the command cell (made under the mutex);
the `pthread_join` that follows writes no field. -/
def stop (s : Renderer F) : Renderer F :=
  { s with _msg := MSG_RENDER_LOOP_EXIT }

/-- `Renderer::setWindow(_window)`, made under the mutex. -/
def setWindow (_window : Handle) (s : Renderer F) : Renderer F :=
  { s with _msg := MSG_WINDOW_SET, window := _window }

/-- `Renderer::destroy()`. -/
def destroy (s : Renderer F) : Renderer F × List (Event F) :=
  ({ s with display := EGL_NO_DISPLAY, surface := EGL_NO_SURFACE, context := EGL_NO_CONTEXT },
   [ Event.callDestroy,
     Event.eglMakeCurrent s.display EGL_NO_SURFACE EGL_NO_SURFACE EGL_NO_CONTEXT,
     Event.eglDestroyContext s.display s.context,
     Event.eglDestroySurface s.display s.surface,
     Event.eglTerminate s.display ])

/-- `Renderer::drawFrame()`. -/
def drawFrame (s : Renderer F) : Renderer F × List (Event F) :=
  ({ s with _angle := s._angle + 1.2 },
   [ Event.callDrawFrame,
     Event.gl GlCall.glClear_COLOR_DEPTH,
     Event.gl GlCall.glMatrixMode_MODELVIEW,
     Event.gl GlCall.glLoadIdentity,
     Event.gl (GlCall.glTranslatef 0 0 (-3.0)),
     Event.gl (GlCall.glRotatef s._angle 0 1 0),
     Event.gl (GlCall.glRotatef (s._angle * 0.25) 1 0 0),
     Event.gl GlCall.glEnableClientState_VERTEX_ARRAY,
     Event.gl GlCall.glEnableClientState_COLOR_ARRAY,
     Event.gl GlCall.glFrontFace_CW,
     Event.gl GlCall.glVertexPointer,
     Event.gl GlCall.glColorPointer,
     Event.gl (GlCall.glDrawElements 36) ])

/-- `Renderer::step()`; `swapOk` is the result of `eglSwapBuffers`. -/
def step (swapOk : Bool) (s : Renderer F) : Renderer F × List (Event F) :=
  if s.display ≠ 0 then
    let r := drawFrame s
    (r.1, r.2 ++ [Event.eglSwapBuffers r.1.display r.1.surface]
            ++ (if swapOk then [] else [Event.logError EglCall.eglSwapBuffers]))
  else (s, [])

/-- The failure exit shared by the later steps of `initialize`:
`LOG_E(...); destroy(); return false;`. -/
def failDestroy (c : EglCall) (s : Renderer F) (t : List (Event F)) :
    Bool × Renderer F × List (Event F) :=
  (false, (destroy s).1, t ++ [Event.logError c] ++ (destroy s).2)

/-- The tail of `initialize` once `eglQuerySurface` has given both sizes. -/
def configureViewport (width height : Int) (s : Renderer F) : List (Event F) :=
  let ratio : F := ((width : Int) : F) / ((height : Int) : F)
  [ Event.xmit s.display s.surface s.context,
    Event.gl GlCall.glDisable_DITHER,
    Event.gl GlCall.glHint_PERSPECTIVE_FASTEST,
    Event.gl (GlCall.glClearColor 0 0 0 0),
    Event.gl GlCall.glEnable_CULL_FACE,
    Event.gl GlCall.glShadeModel_SMOOTH,
    Event.gl GlCall.glEnable_DEPTH_TEST,
    Event.gl (GlCall.glViewport 0 0 width height),
    Event.gl GlCall.glMatrixMode_PROJECTION,
    Event.gl GlCall.glLoadIdentity,
    Event.gl (GlCall.glFrustumf (-ratio) ratio (-1) 1 1 10) ]

/-- `Renderer::initialize()`: the returned `Bool` is its return value. The
first two failure exits return without `destroy()`, the others call it. -/
def initializeEgl (o : EglOutcome) (s : Renderer F) : Bool × Renderer F × List (Event F) :=
  let s1 : Renderer F := { s with display := o.getDisplay }
  let t1 : List (Event F) := [Event.callInitialize, Event.eglGetDisplay]
  if s1.display = EGL_NO_DISPLAY then
    (false, s1, t1 ++ [Event.logError EglCall.eglGetDisplay])
  else
    let t2 := t1 ++ [Event.eglInitialize s1.display]
    if o.initializeOk = false then
      (false, s1, t2 ++ [Event.logError EglCall.eglInitialize])
    else
      let t3 := t2 ++ [Event.eglChooseConfig s1.display]
      match o.chooseConfig with
      | none => failDestroy EglCall.eglChooseConfig s1 t3
      | some config =>
        let t4 := t3 ++ [Event.eglGetConfigAttrib s1.display config]
        match o.getConfigAttrib with
        | none => failDestroy EglCall.eglGetConfigAttrib s1 t4
        | some format =>
          let t5 := t4 ++ [Event.setBuffersGeometry s1.window format,
                           Event.eglCreateWindowSurface s1.display config s1.window]
          let s2 : Renderer F := { s1 with surface := o.createWindowSurface }
          if s2.surface = 0 then
            failDestroy EglCall.eglCreateWindowSurface s2 t5
          else
            let t6 := t5 ++ [Event.eglCreateContext s2.display config]
            let s3 : Renderer F := { s2 with context := o.createContext }
            if s3.context = 0 then
              failDestroy EglCall.eglCreateContext s3 t6
            else
              let t7 := t6 ++ [Event.eglMakeCurrent s3.display s3.surface s3.surface s3.context]
              if o.makeCurrentOk = false then
                failDestroy EglCall.eglMakeCurrent s3 t7
              else
                let t8 := t7 ++ [Event.eglQuerySurface s3.display s3.surface SurfaceAttr.EGL_WIDTH]
                match o.queryWidth with
                | none => failDestroy EglCall.eglQuerySurface s3 t8
                | some width =>
                  let t9 := t8 ++
                    [Event.eglQuerySurface s3.display s3.surface SurfaceAttr.EGL_HEIGHT]
                  match o.queryHeight with
                  | none => failDestroy EglCall.eglQuerySurface s3 t9
                  | some height => (true, s3, t9 ++ configureViewport width height s3)

/-- The command processing of `Renderer::renderLoop()`: the `switch` on `_msg`
and the `_msg = MSG_NONE` that follows it. -/
def processMessage (o : EglOutcome) (s : Renderer F) : Renderer F × List (Event F) :=
  let r : Renderer F × List (Event F) :=
    match s._msg with
    | MSG_WINDOW_SET => (initializeEgl o s).2
    | MSG_RENDER_LOOP_EXIT => destroy { s with renderingEnabled := false }
    | MSG_NONE => (s, [])
  ({ r.1 with _msg := MSG_NONE }, r.2)

/-- One pass through the body of the `while` of `Renderer::renderLoop()`:
lock, command processing, `step()`, unlock. -/
def loopBody (o : EglOutcome) (swapOk : Bool) (s : Renderer F) :
    Renderer F × List (Event F) :=
  let m := processMessage o s
  let q := step swapOk m.1
  (q.1, [Event.mutexLock] ++ m.2 ++ q.2 ++ [Event.mutexUnlock])

/-- A call by the owning thread that writes the command cell. -/
inductive Publish where
  | setWindow (h : Handle)
  | stop
  deriving DecidableEq, Repr

/-- The write a publish makes. -/
def publish (p : Publish) (s : Renderer F) : Renderer F :=
  match p with
  | Publish.setWindow h => setWindow h s
  | Publish.stop => stop s

/-- The publishes of a list, made in order. -/
def publishAll (ps : List Publish) (s : Renderer F) : Renderer F :=
  ps.foldl (fun acc p => publish p acc) s

/-- What happens around one pass of the loop: the publishes the owning thread
makes before the worker takes the mutex (they need the mutex, which the worker
holds during the whole pass, so none falls inside a pass), and the answers of
EGL during the pass. -/
structure IterInput where
  publishes : List Publish
  egl : EglOutcome
  swapOk : Bool
  deriving DecidableEq, Repr

/-- `Renderer::renderLoop()`, `while (renderingEnabled) ...`, run on the given
inputs, one per pass: it stops when the flag is false, or with the flag still
true when the inputs are used up (a prefix of a longer run). -/
def renderLoop : List IterInput → Renderer F → Renderer F × List (Event F)
  | [], s => (s, [])
  | i :: rest, s =>
    if s.renderingEnabled = true then
      let r := loopBody i.egl i.swapOk (publishAll i.publishes s)
      let q := renderLoop rest r.1
      (q.1, r.2 ++ q.2)
    else (s, [])

/-- The number of passes `renderLoop` makes on the given inputs. -/
def iterations : List IterInput → Renderer F → Nat
  | [], _ => 0
  | i :: rest, s =>
    if s.renderingEnabled = true then
      iterations rest (loopBody i.egl i.swapOk (publishAll i.publishes s)).1 + 1
    else 0

/-- The event is the entry of `initialize()`. -/
def Event.isInitialize : Event F → Bool
  | Event.callInitialize => true
  | _ => false

/-- The event is the entry of `destroy()`. -/
def Event.isDestroy : Event F → Bool
  | Event.callDestroy => true
  | _ => false

/-- The event is the entry of `drawFrame()`. -/
def Event.isDrawFrame : Event F → Bool
  | Event.callDrawFrame => true
  | _ => false

/-- The event is a call of `eglSwapBuffers`. -/
def Event.isSwapBuffers : Event F → Bool
  | Event.eglSwapBuffers _ _ => true
  | _ => false

/-- The event belongs to surface acquisition: the entry of `initialize()` or one
of the calls only `initialize()` makes. -/
def Event.isAcquisition : Event F → Bool
  | Event.callInitialize => true
  | Event.eglGetDisplay => true
  | Event.eglInitialize _ => true
  | Event.eglChooseConfig _ => true
  | Event.eglGetConfigAttrib _ _ => true
  | Event.setBuffersGeometry _ _ => true
  | Event.eglCreateWindowSurface _ _ _ => true
  | Event.eglCreateContext _ _ => true
  | Event.eglQuerySurface _ _ _ => true
  | Event.xmit _ _ _ => true
  | _ => false

/-- The native window a call is given, for the two calls that take one. -/
def Event.windowArg : Event F → Option Handle
  | Event.setBuffersGeometry w _ => some w
  | Event.eglCreateWindowSurface _ _ w => some w
  | _ => none

/-- The event is part of the viewport derivation: `glViewport` or `glFrustumf`
(whose arguments hold the quotient `width / height`). -/
def Event.isViewport : Event F → Bool
  | Event.gl (GlCall.glViewport _ _ _ _) => true
  | Event.gl (GlCall.glFrustumf _ _ _ _ _ _) => true
  | _ => false

/-- The event is surface work: entry of `initialize()`, `destroy()` or
`drawFrame()`, or a call of `eglSwapBuffers`. -/
def Event.isWork (e : Event F) : Bool :=
  e.isInitialize || e.isDestroy || e.isDrawFrame || e.isSwapBuffers

/-- The EGL resources a release call names: the display, and the context or
surface when the call takes one. -/
def Event.released : Event F → List Handle
  | Event.eglDestroyContext d c => [d, c]
  | Event.eglDestroySurface d s => [d, s]
  | Event.eglTerminate d => [d]
  | _ => []

/-- The events of a trace that fall strictly between a `pthread_mutex_lock` and
the next `pthread_mutex_unlock`; `held` tells whether the mutex is held at the
start of the trace. -/
def heldEvents (held : Bool) : List (Event F) → List (Event F)
  | [] => []
  | Event.mutexLock :: t => heldEvents true t
  | Event.mutexUnlock :: t => heldEvents false t
  | e :: t => if held then e :: heldEvents held t else heldEvents held t

/-- The event is a lock or an unlock of the command-cell mutex. -/
def Event.isLock : Event F → Bool
  | Event.mutexLock => true
  | Event.mutexUnlock => true
  | _ => false

/-- A sample answer of EGL: every call succeeds, the surface is 640 by 480. -/
def sampleOk : EglOutcome :=
  { getDisplay := 11, initializeOk := true, chooseConfig := some 3, getConfigAttrib := some 1,
    createWindowSurface := 12, createContext := 13, makeCurrentOk := true,
    queryWidth := some 640, queryHeight := some 480 }

/-- A sample answer of EGL: `eglGetDisplay` gives a display, `eglInitialize`
fails. -/
def sampleInitFails : EglOutcome :=
  { sampleOk with initializeOk := false }

/-- A sample answer of EGL: `eglGetDisplay` fails. -/
def sampleNoDisplay : EglOutcome :=
  { sampleOk with getDisplay := 0 }

/-- A sample answer of EGL: every call succeeds, the surface is 0 by 0. -/
def sampleZeroSize : EglOutcome :=
  { sampleOk with queryWidth := some 0, queryHeight := some 0 }

/-- A sample state: a surface is bound to window 7 after some frames. -/
def sampleBound : Renderer ℚ :=
  { _msg := MSG_NONE, window := 7, display := 1, surface := 2, context := 3,
    _angle := 6, renderingEnabled := true }

/-- A sample state: a new renderer, running, to which `setWindow(7)` was just
published. -/
def sampleFresh : Renderer ℚ :=
  setWindow 7 (Renderer.new 0 true)

/-- The three handles are the unbound sentinels. -/
def Renderer.unbound (s : Renderer F) : Prop :=
  s.display = EGL_NO_DISPLAY ∧ s.surface = EGL_NO_SURFACE ∧ s.context = EGL_NO_CONTEXT

instance Renderer.decidableUnbound (s : Renderer F) : Decidable s.unbound :=
  inferInstanceAs
    (Decidable (s.display = EGL_NO_DISPLAY ∧ s.surface = EGL_NO_SURFACE ∧
      s.context = EGL_NO_CONTEXT))

end Model

set_option linter.unusedSectionVars false

section Lemmas

variable {F : Type} [Add F] [Mul F] [Div F] [Neg F] [IntCast F] [OfScientific F]

theorem destroy_state (s : Renderer F) :
    (destroy s).1 = { s with display := 0, surface := 0, context := 0 } := rfl

theorem destroy_trace (s : Renderer F) :
    (destroy s).2 = [ Event.callDestroy, Event.eglMakeCurrent s.display 0 0 0,
      Event.eglDestroyContext s.display s.context,
      Event.eglDestroySurface s.display s.surface, Event.eglTerminate s.display ] := rfl

theorem step_of_display_ne (swapOk : Bool) (s : Renderer F) (h : s.display ≠ 0) :
    step swapOk s = ((drawFrame s).1,
      (drawFrame s).2 ++ [Event.eglSwapBuffers s.display s.surface]
        ++ (if swapOk then [] else [Event.logError EglCall.eglSwapBuffers])) := by
  simp [step, h, drawFrame]

theorem step_of_display_eq (swapOk : Bool) (s : Renderer F) (h : s.display = 0) :
    step swapOk s = (s, []) := by
  simp [step, h]

/-- The fields `initialize()` never writes. -/
theorem initializeEgl_frame (o : EglOutcome) (s : Renderer F) :
    (initializeEgl o s).2.1._msg = s._msg ∧ (initializeEgl o s).2.1.window = s.window ∧
    (initializeEgl o s).2.1._angle = s._angle ∧
    (initializeEgl o s).2.1.renderingEnabled = s.renderingEnabled := by
  unfold initializeEgl failDestroy
  simp only [destroy_state]
  repeat' split
  all_goals simp

theorem initializeEgl_count (o : EglOutcome) (s : Renderer F) :
    (initializeEgl o s).2.2.countP Event.isInitialize = 1 := by
  unfold initializeEgl failDestroy configureViewport
  simp only [destroy_state, destroy_trace, List.append_assoc, List.cons_append, List.nil_append]
  repeat' split
  all_goals simp only [List.countP_cons, List.countP_nil, Event.isInitialize]
  all_goals rfl

theorem initializeEgl_noframe (o : EglOutcome) (s : Renderer F) :
    ∀ e ∈ (initializeEgl o s).2.2,
      e.isDrawFrame = false ∧ e.isSwapBuffers = false ∧ e.isLock = false := by
  unfold initializeEgl failDestroy configureViewport
  simp only [destroy_state, destroy_trace, List.append_assoc, List.cons_append, List.nil_append]
  repeat' split
  all_goals simp only [List.mem_cons, List.mem_singleton, forall_eq_or_imp, forall_eq,
    List.not_mem_nil, Event.isDrawFrame, Event.isSwapBuffers, Event.isLock, and_self,
    false_or, or_false, IsEmpty.forall_iff, implies_true]

theorem initializeEgl_window (o : EglOutcome) (s : Renderer F) :
    ∀ e ∈ (initializeEgl o s).2.2, ∀ w, e.windowArg = some w → w = s.window := by
  unfold initializeEgl failDestroy configureViewport
  simp only [destroy_state, destroy_trace, List.append_assoc, List.cons_append, List.nil_append]
  repeat' split
  all_goals simp only [List.mem_cons, List.mem_singleton, forall_eq_or_imp, forall_eq,
    List.not_mem_nil, Event.windowArg, and_self, Option.some.injEq, eq_comm,
    false_or, or_false, IsEmpty.forall_iff, implies_true, reduceCtorEq, forall_eq']

theorem processMessage_none (o : EglOutcome) (s : Renderer F) (h : s._msg = MSG_NONE) :
    processMessage o s = ({ s with _msg := MSG_NONE }, []) := by
  simp [processMessage, h]

theorem processMessage_exit (o : EglOutcome) (s : Renderer F)
    (h : s._msg = MSG_RENDER_LOOP_EXIT) :
    processMessage o s =
      ({ s with _msg := MSG_NONE, renderingEnabled := false, display := 0, surface := 0,
                context := 0 }, (destroy s).2) := by
  simp [processMessage, h, destroy, EGL_NO_DISPLAY, EGL_NO_SURFACE, EGL_NO_CONTEXT]

theorem processMessage_window (o : EglOutcome) (s : Renderer F)
    (h : s._msg = MSG_WINDOW_SET) :
    processMessage o s =
      ({ (initializeEgl o s).2.1 with _msg := MSG_NONE }, (initializeEgl o s).2.2) := by
  simp [processMessage, h]

/-- Command processing always leaves the cell empty and never touches `_angle`
or `window`; the flag falls exactly on `MSG_RENDER_LOOP_EXIT`. -/
theorem processMessage_frame (o : EglOutcome) (s : Renderer F) :
    (processMessage o s).1._msg = MSG_NONE ∧ (processMessage o s).1._angle = s._angle ∧
    (processMessage o s).1.window = s.window ∧
    (processMessage o s).1.renderingEnabled =
      (if s._msg = MSG_RENDER_LOOP_EXIT then false else s.renderingEnabled) := by
  have hf := initializeEgl_frame o s
  cases hm : s._msg
  · simp [processMessage_none o s hm]
  · simp [processMessage_window o s hm, hf]
  · simp [processMessage_exit o s hm]

/-- The fields `step()` never writes. -/
theorem step_frame (swapOk : Bool) (s : Renderer F) :
    (step swapOk s).1._msg = s._msg ∧ (step swapOk s).1.window = s.window ∧
    (step swapOk s).1.display = s.display ∧ (step swapOk s).1.surface = s.surface ∧
    (step swapOk s).1.context = s.context ∧
    (step swapOk s).1.renderingEnabled = s.renderingEnabled := by
  by_cases h : s.display = 0
  · simp [step_of_display_eq swapOk s h]
  · simp [step_of_display_ne swapOk s h, drawFrame]

/-- The calls of `step()` are frame calls only: no entry of `initialize()` or
`destroy()`, no acquisition call, no locking, no window argument. -/
theorem step_trace_plain (swapOk : Bool) (s : Renderer F) :
    ∀ e ∈ (step swapOk s).2, e.isInitialize = false ∧ e.isDestroy = false ∧
      e.isAcquisition = false ∧ e.isLock = false ∧ e.windowArg = none ∧
      e.isViewport = false := by
  by_cases h : s.display = 0
  · simp [step_of_display_eq swapOk s h]
  · rw [step_of_display_ne swapOk s h]
    cases swapOk <;>
      simp [drawFrame, Event.isInitialize, Event.isDestroy, Event.isAcquisition,
        Event.isLock, Event.windowArg, Event.isViewport]

/-- The frame events of `step()`, in order: `drawFrame()` then `eglSwapBuffers`
when `display` is set, nothing otherwise. -/
theorem step_frames (swapOk : Bool) (s : Renderer F) :
    (step swapOk s).2.filter (fun e => e.isDrawFrame || e.isSwapBuffers) =
      if s.display ≠ 0 then [Event.callDrawFrame, Event.eglSwapBuffers s.display s.surface]
      else [] := by
  by_cases h : s.display = 0
  · simp [step_of_display_eq swapOk s h, h]
  · rw [step_of_display_ne swapOk s h]
    cases swapOk <;>
      simp [drawFrame, h, List.filter_cons, Event.isDrawFrame, Event.isSwapBuffers]

theorem loopBody_state (o : EglOutcome) (swapOk : Bool) (s : Renderer F) :
    (loopBody o swapOk s).1 = (step swapOk (processMessage o s).1).1 := rfl

theorem loopBody_trace (o : EglOutcome) (swapOk : Bool) (s : Renderer F) :
    (loopBody o swapOk s).2 =
      Event.mutexLock :: ((processMessage o s).2 ++ (step swapOk (processMessage o s).1).2
        ++ [Event.mutexUnlock]) := by
  simp [loopBody]

/-- A pass leaves the cell empty; the flag falls exactly on
`MSG_RENDER_LOOP_EXIT`. -/
theorem loopBody_frame (o : EglOutcome) (swapOk : Bool) (s : Renderer F) :
    (loopBody o swapOk s).1._msg = MSG_NONE ∧
    (loopBody o swapOk s).1.window = s.window ∧
    (loopBody o swapOk s).1.renderingEnabled =
      (if s._msg = MSG_RENDER_LOOP_EXIT then false else s.renderingEnabled) := by
  have hp := processMessage_frame o s
  have hs := step_frame swapOk (processMessage o s).1
  rw [loopBody_state]
  exact ⟨hs.1.trans hp.1, hs.2.1.trans hp.2.2.1, hs.2.2.2.2.2.trans hp.2.2.2⟩

/-- A publish writes `_msg` and `window` only. -/
theorem publishAll_frame (ps : List Publish) (s : Renderer F) :
    (publishAll ps s).display = s.display ∧ (publishAll ps s).surface = s.surface ∧
    (publishAll ps s).context = s.context ∧ (publishAll ps s)._angle = s._angle ∧
    (publishAll ps s).renderingEnabled = s.renderingEnabled := by
  induction ps generalizing s with
  | nil => simp [publishAll]
  | cons p ps ih =>
    have h := ih (publish p s)
    simp only [publishAll, List.foldl_cons] at h ⊢
    cases p <;> simpa [publish, setWindow, stop] using h

theorem publishAll_snoc (ps : List Publish) (p : Publish) (s : Renderer F) :
    publishAll (ps ++ [p]) s = publish p (publishAll ps s) := by
  simp [publishAll, List.foldl_append]

/-- The trace of the `MSG_RENDER_LOOP_EXIT` pass. -/
theorem loopBody_trace_exit (o : EglOutcome) (swapOk : Bool) (s : Renderer F)
    (h : s._msg = MSG_RENDER_LOOP_EXIT) :
    (loopBody o swapOk s).2 = Event.mutexLock :: ((destroy s).2 ++ [Event.mutexUnlock]) := by
  rw [loopBody_trace, processMessage_exit o s h, step_of_display_eq _ _ rfl]
  simp

/-- Command processing renders and presents nothing and does no locking. -/
theorem processMessage_noframe (o : EglOutcome) (s : Renderer F) :
    ∀ e ∈ (processMessage o s).2,
      e.isDrawFrame = false ∧ e.isSwapBuffers = false ∧ e.isLock = false := by
  cases hm : s._msg
  · simp [processMessage_none o s hm]
  · rw [processMessage_window o s hm]
    exact initializeEgl_noframe o s
  · rw [processMessage_exit o s hm, destroy_trace]
    simp [Event.isDrawFrame, Event.isSwapBuffers, Event.isLock]

/-- The frame events of a pass are those of its `step()`. -/
theorem loopBody_frames (o : EglOutcome) (swapOk : Bool) (s : Renderer F) :
    (loopBody o swapOk s).2.filter (fun e => e.isDrawFrame || e.isSwapBuffers) =
      (step swapOk (processMessage o s).1).2.filter
        (fun e => e.isDrawFrame || e.isSwapBuffers) := by
  have hp : (processMessage o s).2.filter (fun e => e.isDrawFrame || e.isSwapBuffers) = [] := by
    rw [List.filter_eq_nil_iff]
    intro e he
    have h := processMessage_noframe o s e he
    simp [h.1, h.2.1]
  rw [loopBody_trace]
  simp only [List.filter_cons, List.filter_append, hp, List.filter_nil, List.nil_append]
  simp [Event.isDrawFrame, Event.isSwapBuffers]

/-- With the mutex held, a stretch of events without locking is collected whole
up to the unlock that ends it. -/
theorem heldEvents_until_unlock (t rest : List (Event F)) (h : ∀ e ∈ t, e.isLock = false) :
    heldEvents true (t ++ Event.mutexUnlock :: rest) = t ++ heldEvents false rest := by
  induction t with
  | nil => simp [heldEvents]
  | cons e t ih =>
    have he : e.isLock = false := h e (List.mem_cons_self e t)
    have ht := ih (fun x hx => h x (List.mem_cons_of_mem e hx))
    cases e <;> simp_all [heldEvents, Event.isLock]

/-- The cell after a list of publishes holds the last of them, or what it held
when the list is empty. -/
theorem publishAll_msg (ps : List Publish) (s : Renderer F) :
    (publishAll ps s)._msg =
      match ps.getLast? with
      | none => s._msg
      | some (Publish.setWindow _) => MSG_WINDOW_SET
      | some Publish.stop => MSG_RENDER_LOOP_EXIT := by
  induction ps using List.reverseRecOn with
  | nil => simp [publishAll]
  | append_singleton ps p _ =>
    rw [publishAll_snoc]
    cases p <;> simp [publish, setWindow, stop]

/-- Once the flag is false the loop makes no pass. -/
theorem renderLoop_of_stopped (inputs : List IterInput) (s : Renderer F)
    (h : s.renderingEnabled = false) :
    iterations inputs s = 0 ∧ renderLoop inputs s = (s, []) := by
  cases inputs <;> simp [iterations, renderLoop, h]

/-- Passes over a split input list add up. -/
theorem iterations_append (pre more : List IterInput) (s : Renderer F) :
    iterations (pre ++ more) s = iterations pre s + iterations more (renderLoop pre s).1 := by
  induction pre generalizing s with
  | nil => simp [iterations, renderLoop]
  | cons i pre ih =>
    by_cases hrun : s.renderingEnabled = true
    · have h := ih (loopBody i.egl i.swapOk (publishAll i.publishes s)).1
      simp only [List.cons_append, iterations, renderLoop, hrun, if_true, List.append_eq]
      omega
    · have hr : s.renderingEnabled = false := by simpa using hrun
      simp [iterations, renderLoop, hr, (renderLoop_of_stopped more s hr).1]

/-- While the flag is true and no pass consumes an exit, every input is used for
one pass, and the flag is still true and no exit is pending afterwards. -/
theorem iterations_without_exit (inputs : List IterInput) (s : Renderer F)
    (hrun : s.renderingEnabled = true) (hmsg : s._msg ≠ MSG_RENDER_LOOP_EXIT)
    (hin : ∀ i ∈ inputs, i.publishes.getLast? ≠ some Publish.stop) :
    iterations inputs s = inputs.length ∧
    (renderLoop inputs s).1.renderingEnabled = true ∧
    (renderLoop inputs s).1._msg ≠ MSG_RENDER_LOOP_EXIT := by
  induction inputs generalizing s with
  | nil => simp [iterations, renderLoop, hrun, hmsg]
  | cons i rest ih =>
    have hi := hin i (List.mem_cons_self i rest)
    have hfr := publishAll_frame i.publishes s
    have hm : (publishAll i.publishes s)._msg ≠ MSG_RENDER_LOOP_EXIT := by
      rw [publishAll_msg]
      split
      · exact hmsg
      · simp
      · rename_i heq
        exact absurd heq hi
    have hb := loopBody_frame i.egl i.swapOk (publishAll i.publishes s)
    have hrun1 : (loopBody i.egl i.swapOk (publishAll i.publishes s)).1.renderingEnabled
        = true := by
      rw [hb.2.2, if_neg hm, hfr.2.2.2.2, hrun]
    have hmsg1 : (loopBody i.egl i.swapOk (publishAll i.publishes s)).1._msg
        ≠ MSG_RENDER_LOOP_EXIT := by
      rw [hb.1]
      simp
    have h := ih _ hrun1 hmsg1 (fun x hx => hin x (List.mem_cons_of_mem i hx))
    simp only [iterations, renderLoop, hrun, if_true, List.length_cons]
    exact ⟨by rw [h.1], h.2.1, h.2.2⟩

/-- Between the lock and the unlock of a pass nothing else locks. -/
theorem loopBody_mid_nolock (o : EglOutcome) (swapOk : Bool) (s : Renderer F) :
    ∀ e ∈ (processMessage o s).2 ++ (step swapOk (processMessage o s).1).2,
      e.isLock = false := by
  intro e he
  rcases List.mem_append.1 he with he | he
  · exact (processMessage_noframe _ _ e he).2.2
  · exact (step_trace_plain _ _ e he).2.2.2.1

/-- A trace made of a lock, a stretch without locking and an unlock has exactly
that stretch under the mutex. -/
theorem heldEvents_pass (mid : List (Event F)) (h : ∀ e ∈ mid, e.isLock = false) :
    heldEvents false (Event.mutexLock :: (mid ++ [Event.mutexUnlock])) = mid := by
  show heldEvents true (mid ++ Event.mutexUnlock :: []) = mid
  rw [heldEvents_until_unlock mid [] h]
  simp [heldEvents]

/-- Everything a pass does falls under its mutex. -/
theorem heldEvents_loopBody (o : EglOutcome) (swapOk : Bool) (s : Renderer F) :
    heldEvents false (loopBody o swapOk s).2 =
      (processMessage o s).2 ++ (step swapOk (processMessage o s).1).2 := by
  rw [loopBody_trace]
  exact heldEvents_pass _ (loopBody_mid_nolock o swapOk s)

/-- Command processing of `MSG_WINDOW_SET` enters `initialize()`. -/
theorem processMessage_enters_initialize (o : EglOutcome) (s : Renderer F)
    (h : s._msg = MSG_WINDOW_SET) : Event.callInitialize ∈ (processMessage o s).2 := by
  rw [processMessage_window o s h]
  have hc : 0 < (initializeEgl o s).2.2.countP Event.isInitialize := by
    rw [initializeEgl_count]
    exact Nat.one_pos
  obtain ⟨e, he, hp⟩ := List.countP_pos_iff.1 hc
  cases e <;> simp_all [Event.isInitialize]

/-- With `display` set, `step()` enters `drawFrame()` and calls
`eglSwapBuffers` on the display and surface fields. -/
theorem step_draws (swapOk : Bool) (s : Renderer F) (h : s.display ≠ 0) :
    Event.callDrawFrame ∈ (step swapOk s).2 ∧
    Event.eglSwapBuffers s.display s.surface ∈ (step swapOk s).2 := by
  rw [step_of_display_ne swapOk s h]
  simp [drawFrame]

end Lemmas

section Claims

variable {F : Type} [Add F] [Mul F] [Div F] [Neg F] [IntCast F] [OfScientific F]

/-- C6: `destroy()` is idempotent. For every state the three handles become the
unbound sentinels, `_msg`, `window`, `_angle` and the running flag are kept, and
a second `destroy()` gives the same state. On a state whose handles are already
the sentinels the state is unchanged, and every release call of that `destroy()`
(and of any second `destroy()`) names only the sentinel: no resource is
destroyed or terminated again. -/
theorem destroy_idempotent (s : Renderer F) :
    (destroy s).1.unbound ∧
    (destroy s).1._msg = s._msg ∧ (destroy s).1.window = s.window ∧
    (destroy s).1._angle = s._angle ∧
    (destroy s).1.renderingEnabled = s.renderingEnabled ∧
    (destroy (destroy s).1).1 = (destroy s).1 ∧
    (s.unbound → (destroy s).1 = s ∧ ∀ e ∈ (destroy s).2, ∀ h ∈ e.released, h = 0) ∧
    (∀ e ∈ (destroy (destroy s).1).2, ∀ h ∈ e.released, h = 0) := by
  refine ⟨⟨rfl, rfl, rfl⟩, rfl, rfl, rfl, rfl, rfl, ?_, ?_⟩
  · rintro ⟨hd, hs, hc⟩
    simp only [EGL_NO_DISPLAY, EGL_NO_SURFACE, EGL_NO_CONTEXT] at hd hs hc
    constructor
    · cases s
      simp_all [destroy, EGL_NO_DISPLAY, EGL_NO_SURFACE, EGL_NO_CONTEXT]
    · simp [destroy_trace, Event.released, hd, hs, hc]
  · simp [destroy_trace, destroy_state, Event.released]

/-- C6 at a concrete state: `destroy()` on an unbound renderer. -/
theorem destroy_idempotent_witness :
    (destroy (Renderer.new 7 true : Renderer ℚ)).1 = Renderer.new 7 true ∧
    ∀ e ∈ (destroy (Renderer.new 7 true : Renderer ℚ)).2, ∀ h ∈ e.released, h = 0 :=
  (destroy_idempotent (Renderer.new 7 true : Renderer ℚ)).2.2.2.2.2.2.1 ⟨rfl, rfl, rfl⟩

/-- C2: a pass that consumes `MSG_RENDER_LOOP_EXIT` ends with the running flag
false and the three handles at their unbound sentinels, renders and presents no
frame, keeps `_angle`, and no further pass runs: `renderLoop` from the resulting
state returns at once whatever inputs follow. -/
theorem shutdown_transition (o : EglOutcome) (swapOk : Bool) (s : Renderer F)
    (h : s._msg = MSG_RENDER_LOOP_EXIT) :
    (loopBody o swapOk s).1.renderingEnabled = false ∧
    (loopBody o swapOk s).1.unbound ∧
    (∀ e ∈ (loopBody o swapOk s).2, e.isDrawFrame = false ∧ e.isSwapBuffers = false) ∧
    (loopBody o swapOk s).1._angle = s._angle ∧
    (∀ inputs : List IterInput,
      renderLoop inputs (loopBody o swapOk s).1 = ((loopBody o swapOk s).1, []) ∧
      iterations inputs (loopBody o swapOk s).1 = 0) := by
  have hp := processMessage_exit o s h
  have hst : (loopBody o swapOk s).1 =
      { s with _msg := MSG_NONE, renderingEnabled := false, display := 0, surface := 0,
               context := 0 } := by
    rw [loopBody_state, hp, step_of_display_eq _ _ rfl]
  have htr : (loopBody o swapOk s).2 =
      Event.mutexLock :: ((destroy s).2 ++ [Event.mutexUnlock]) := by
    rw [loopBody_trace, hp, step_of_display_eq _ _ rfl]
    simp
  refine ⟨by rw [hst], by rw [hst]; exact ⟨rfl, rfl, rfl⟩, ?_, by rw [hst], ?_⟩
  · rw [htr, destroy_trace]
    simp [Event.isDrawFrame, Event.isSwapBuffers]
  · intro inputs
    rw [hst]
    cases inputs <;> simp [renderLoop, iterations]

/-- C2 at a concrete state: `stop()` published while a surface is bound. -/
theorem shutdown_transition_witness :
    (loopBody sampleOk true (stop sampleBound)).1.renderingEnabled = false ∧
    (loopBody sampleOk true (stop sampleBound)).1.unbound ∧
    (loopBody sampleOk true (stop sampleBound)).1._angle = (stop sampleBound)._angle :=
  have h := shutdown_transition sampleOk true (stop sampleBound) rfl
  ⟨h.1, h.2.1, h.2.2.2.1⟩

/-- C5: in a pass started with the running flag true, the flag is false at the
end exactly when the command consumed is `MSG_RENDER_LOOP_EXIT`. In particular
the flag stays true when `initialize()` returns false, whichever step failed,
and when `eglSwapBuffers` fails; the loop then makes its next pass. -/
theorem only_shutdown_ends_loop (o : EglOutcome) (swapOk : Bool) (s : Renderer F)
    (hrun : s.renderingEnabled = true) :
    ((loopBody o swapOk s).1.renderingEnabled = false ↔ s._msg = MSG_RENDER_LOOP_EXIT) ∧
    (s._msg = MSG_WINDOW_SET → (initializeEgl o s).1 = false →
      (loopBody o swapOk s).1.renderingEnabled = true) ∧
    (s._msg ≠ MSG_RENDER_LOOP_EXIT → (loopBody o false s).1.renderingEnabled = true) ∧
    (s._msg ≠ MSG_RENDER_LOOP_EXIT →
      ∀ (i : IterInput) (rest : List IterInput),
        0 < iterations (i :: rest) (loopBody o swapOk s).1) := by
  have hf := fun sw => (loopBody_frame o sw s).2.2
  refine ⟨?_, ?_, ?_, ?_⟩
  · rw [hf]
    by_cases hm : s._msg = MSG_RENDER_LOOP_EXIT <;> simp [hm, hrun]
  · intro hm _
    rw [hf]
    simp [hm, hrun]
  · intro hm
    rw [hf]
    simp [hm, hrun]
  · intro hm i rest
    have : (loopBody o swapOk s).1.renderingEnabled = true := by
      rw [hf]
      simp [hm, hrun]
    simp [iterations, this]

/-- C5 at a concrete input: `setWindow(7)` whose acquisition fails at
`eglInitialize`, with a failing `eglSwapBuffers`; the flag stays true. -/
theorem only_shutdown_ends_loop_witness :
    (initializeEgl sampleInitFails (setWindow 7 sampleBound)).1 = false ∧
    (loopBody sampleInitFails false (setWindow 7 sampleBound)).1.renderingEnabled = true :=
  ⟨rfl, (only_shutdown_ends_loop sampleInitFails false (setWindow 7 sampleBound) rfl).2.1
    rfl rfl⟩

/-- C10: after one pass the command cell `_msg` is `MSG_NONE`, for every state
and every pending command. Hence a second pass with no publish in between
enters neither `initialize()` nor `destroy()`, and over the two passes that
follow one `setWindow(h)` the entry of `initialize()` occurs exactly once,
whether or not that acquisition succeeds. -/
theorem command_consumed_once (o1 o2 : EglOutcome) (sw1 sw2 : Bool) (s : Renderer F) :
    (loopBody o1 sw1 s).1._msg = MSG_NONE ∧
    (∀ e ∈ (loopBody o2 sw2 (publishAll [] (loopBody o1 sw1 s).1)).2,
      e.isInitialize = false ∧ e.isDestroy = false) ∧
    (∀ h : Handle,
      ((loopBody o1 sw1 (setWindow h s)).2 ++
        (loopBody o2 sw2 (publishAll [] (loopBody o1 sw1 (setWindow h s)).1)).2).countP
          Event.isInitialize = 1) := by
  have key : ∀ t : Renderer F, t._msg = MSG_NONE →
      ∀ e ∈ (loopBody o2 sw2 t).2, e.isInitialize = false ∧ e.isDestroy = false := by
    intro t ht e he
    rw [loopBody_trace, processMessage_none o2 t ht] at he
    simp only [List.nil_append, List.mem_cons, List.mem_append, List.mem_singleton,
      List.not_mem_nil, or_false] at he
    rcases he with rfl | he | rfl
    · exact ⟨rfl, rfl⟩
    · exact ⟨(step_trace_plain _ _ e he).1, (step_trace_plain _ _ e he).2.1⟩
    · exact ⟨rfl, rfl⟩
  refine ⟨(loopBody_frame o1 sw1 s).1, key _ (loopBody_frame o1 sw1 s).1, ?_⟩
  intro h
  have h2 := key _ (loopBody_frame o1 sw1 (setWindow h s)).1
  have hz : ((loopBody o2 sw2 (publishAll [] (loopBody o1 sw1 (setWindow h s)).1)).2).countP
      Event.isInitialize = 0 := by
    rw [List.countP_eq_zero]
    intro e he
    simp [(h2 e he).1]
  have h1 : ((loopBody o1 sw1 (setWindow h s)).2).countP Event.isInitialize = 1 := by
    rw [loopBody_trace, processMessage_window o1 _ rfl]
    have hc := initializeEgl_count o1 (setWindow h s)
    have hs : ∀ t : Renderer F, ((step sw1 t).2).countP Event.isInitialize = 0 := by
      intro t
      rw [List.countP_eq_zero]
      intro e he
      simp [(step_trace_plain _ _ e he).1]
    simp [List.countP_cons, List.countP_append, hc, hs, Event.isInitialize]
  rw [List.countP_append, h1, hz]

/-- C1: last writer wins on the command cell. After any publishes followed by a
last one, the pass acts on the last one only. If it is `setWindow(h)`, the cell
and the window are those of `setWindow(h)` alone, the pass enters `initialize()`
exactly once, the window field is `h`, and every window passed to
`ANativeWindow_setBuffersGeometry` or `eglCreateWindowSurface` is `h`. If it is
`stop()`, the pass enters `initialize()` zero times and makes no acquisition
call at all, and its calls are those of a pass after `stop()` alone. -/
theorem last_writer_wins (ps : List Publish) (o : EglOutcome) (swapOk : Bool)
    (s : Renderer F) :
    (∀ h : Handle,
      publishAll (ps ++ [Publish.setWindow h]) s = setWindow h s ∧
      ((loopBody o swapOk (publishAll (ps ++ [Publish.setWindow h]) s)).2).countP
        Event.isInitialize = 1 ∧
      (loopBody o swapOk (publishAll (ps ++ [Publish.setWindow h]) s)).1.window = h ∧
      (∀ e ∈ (loopBody o swapOk (publishAll (ps ++ [Publish.setWindow h]) s)).2,
        ∀ w, e.windowArg = some w → w = h)) ∧
    (((loopBody o swapOk (publishAll (ps ++ [Publish.stop]) s)).2).countP
        Event.isInitialize = 0 ∧
      (∀ e ∈ (loopBody o swapOk (publishAll (ps ++ [Publish.stop]) s)).2,
        e.isAcquisition = false) ∧
      (loopBody o swapOk (publishAll (ps ++ [Publish.stop]) s)).2 =
        (loopBody o swapOk (stop s)).2) := by
  have hfr := publishAll_frame ps s
  constructor
  · intro h
    have heq : publishAll (ps ++ [Publish.setWindow h]) s = setWindow h s := by
      rw [publishAll_snoc]
      simp only [publish, setWindow]
      rw [hfr.1, hfr.2.1, hfr.2.2.1, hfr.2.2.2.1, hfr.2.2.2.2]
    refine ⟨heq, ?_, ?_, ?_⟩
    · rw [heq, loopBody_trace, processMessage_window o _ rfl]
      have hc := initializeEgl_count o (setWindow h s)
      have hs : ∀ t : Renderer F, ((step swapOk t).2).countP Event.isInitialize = 0 := by
        intro t
        rw [List.countP_eq_zero]
        intro e he
        simp [(step_trace_plain _ _ e he).1]
      simp [List.countP_cons, List.countP_append, hc, hs, Event.isInitialize]
    · rw [heq, (loopBody_frame o swapOk (setWindow h s)).2.1]
      rfl
    · rw [heq]
      intro e he w hw
      rw [loopBody_trace, processMessage_window o _ rfl] at he
      simp only [List.mem_cons, List.mem_append, List.mem_singleton, List.not_mem_nil,
        or_false] at he
      rcases he with rfl | (he | he) | rfl
      · simp [Event.windowArg] at hw
      · exact initializeEgl_window o (setWindow h s) e he w hw
      · rw [(step_trace_plain _ _ e he).2.2.2.2.1] at hw
        simp at hw
      · simp [Event.windowArg] at hw
  · have hm : (publishAll (ps ++ [Publish.stop]) s)._msg = MSG_RENDER_LOOP_EXIT := by
      rw [publishAll_snoc]
      rfl
    have ht : (loopBody o swapOk (publishAll (ps ++ [Publish.stop]) s)).2 =
        (loopBody o swapOk (stop s)).2 := by
      rw [loopBody_trace_exit o swapOk _ hm, loopBody_trace_exit o swapOk (stop s) rfl,
        publishAll_snoc]
      simp only [publish, stop, destroy_trace]
      rw [hfr.1, hfr.2.1, hfr.2.2.1]
    refine ⟨?_, ?_, ht⟩
    · rw [loopBody_trace_exit o swapOk _ hm, destroy_trace]
      simp [List.countP_cons, Event.isInitialize]
    · rw [loopBody_trace_exit o swapOk _ hm, destroy_trace]
      simp [Event.isAcquisition]

/-- The later failure exits of `initialize()` release everything: when
`eglGetDisplay` and `eglInitialize` succeed and `initialize()` returns false, the
three handles are the unbound sentinels on return. -/
theorem initializeEgl_later_failure_unbound (o : EglOutcome) (s : Renderer F)
    (hd : o.getDisplay ≠ 0) (hi : o.initializeOk = true)
    (hf : (initializeEgl o s).1 = false) : (initializeEgl o s).2.1.unbound := by
  revert hf
  unfold initializeEgl failDestroy
  simp only [destroy_state, EGL_NO_DISPLAY, hd, hi, if_false, Bool.true_eq_false]
  repeat' split
  all_goals first
    | (intro _; exact ⟨rfl, rfl, rfl⟩)
    | (intro hf; exact absurd hf (by simp))

/-- The two early failure exits of `initialize()` return without `destroy()`:
the state on return is the prior state with `display` overwritten by what
`eglGetDisplay` gave, and the trace holds no entry of `destroy()`. -/
theorem initializeEgl_early_failure (o : EglOutcome) (s : Renderer F)
    (h : o.getDisplay = 0 ∨ o.initializeOk = false) :
    (initializeEgl o s).1 = false ∧
    (initializeEgl o s).2.1 = { s with display := o.getDisplay } ∧
    ∀ e ∈ (initializeEgl o s).2.2, e.isDestroy = false := by
  unfold initializeEgl
  by_cases hd : o.getDisplay = 0
  · simp [hd, EGL_NO_DISPLAY, Event.isDestroy]
  · have hi : o.initializeOk = false := h.resolve_left hd
    simp [hd, hi, EGL_NO_DISPLAY, Event.isDestroy]

/-- C3, the code at a failing input: a new renderer, `setWindow(7)`,
`eglGetDisplay` gives display 11 and `eglInitialize` fails. `initialize()`
returns false without `destroy()`: `display` is still 11, not
`EGL_NO_DISPLAY`, and `step()` then draws and presents on
`(11, EGL_NO_SURFACE)`. Also, when `eglGetDisplay` fails on a renderer with a
bound surface, the earlier surface and context handles stay in place. -/
theorem initialize_early_failure_keeps_handles :
    (initializeEgl sampleInitFails sampleFresh).1 = false ∧
    (initializeEgl sampleInitFails sampleFresh).2.1.display = 11 ∧
    (initializeEgl sampleInitFails sampleFresh).2.1.display ≠ EGL_NO_DISPLAY ∧
    (∀ e ∈ (initializeEgl sampleInitFails sampleFresh).2.2, e.isDestroy = false) ∧
    Event.eglSwapBuffers 11 EGL_NO_SURFACE ∈ (loopBody sampleInitFails true sampleFresh).2 ∧
    (initializeEgl sampleNoDisplay (setWindow 8 sampleBound)).1 = false ∧
    (initializeEgl sampleNoDisplay (setWindow 8 sampleBound)).2.1.surface = 2 ∧
    (initializeEgl sampleNoDisplay (setWindow 8 sampleBound)).2.1.context = 3 := by
  refine ⟨rfl, rfl, by decide, ?_, ?_, rfl, rfl, rfl⟩
  · exact (initializeEgl_early_failure sampleInitFails sampleFresh (Or.inr rfl)).2.2
  · simp [loopBody, processMessage, sampleFresh, setWindow, Renderer.new, initializeEgl,
      sampleInitFails, sampleOk, step, drawFrame, EGL_NO_DISPLAY, EGL_NO_SURFACE]

/-- When `initialize()` returns true the display, surface and context it
created are all set. -/
theorem initializeEgl_success_bound (o : EglOutcome) (s : Renderer F)
    (ht : (initializeEgl o s).1 = true) :
    (initializeEgl o s).2.1.display ≠ 0 ∧ (initializeEgl o s).2.1.surface ≠ 0 ∧
    (initializeEgl o s).2.1.context ≠ 0 := by
  revert ht
  unfold initializeEgl failDestroy
  simp only [destroy_state, EGL_NO_DISPLAY]
  repeat' split
  all_goals (intro hf; simp_all)

/-- The frame events of a pass follow the guard of `step()`: with `display` set
after command processing there is one `drawFrame()` then one `eglSwapBuffers`
and `_angle` grows by 1.2, with `display` null there is neither and `_angle` is
kept. -/
theorem loopBody_frames_by_display (o : EglOutcome) (swapOk : Bool) (s : Renderer F) :
    ((processMessage o s).1.display ≠ EGL_NO_DISPLAY →
      (loopBody o swapOk s).2.filter (fun e => e.isDrawFrame || e.isSwapBuffers) =
        [Event.callDrawFrame,
         Event.eglSwapBuffers (processMessage o s).1.display (processMessage o s).1.surface] ∧
      (loopBody o swapOk s).1._angle = s._angle + 1.2) ∧
    ((processMessage o s).1.display = EGL_NO_DISPLAY →
      (loopBody o swapOk s).2.filter (fun e => e.isDrawFrame || e.isSwapBuffers) = [] ∧
      (loopBody o swapOk s).1._angle = s._angle) := by
  have ha := (processMessage_frame o s).2.1
  constructor
  · intro hd
    have hd0 : (processMessage o s).1.display ≠ 0 := hd
    refine ⟨?_, ?_⟩
    · rw [loopBody_frames, step_frames, if_pos hd0]
    · rw [loopBody_state, step_of_display_ne _ _ hd0]
      simp [drawFrame, ha]
  · intro hd
    have hd0 : (processMessage o s).1.display = 0 := hd
    refine ⟨?_, ?_⟩
    · rw [loopBody_frames, step_frames]
      simp [hd0]
    · rw [loopBody_state, step_of_display_eq _ _ hd0, ha]

/-- Outside the two early failure exits of `initialize()`, command processing
keeps the display and the surface handle set together or null together. -/
theorem processMessage_keeps_sync (o : EglOutcome) (s : Renderer F)
    (hsync : s.display = 0 ↔ s.surface = 0)
    (hpath : s._msg = MSG_WINDOW_SET → o.getDisplay ≠ 0 ∧ o.initializeOk = true) :
    (processMessage o s).1.display = 0 ↔ (processMessage o s).1.surface = 0 := by
  cases hm : s._msg
  · rw [processMessage_none o s hm]
    exact hsync
  · rw [processMessage_window o s hm]
    obtain ⟨hd, hi⟩ := hpath hm
    cases hr : (initializeEgl o s).1
    · have hu := initializeEgl_later_failure_unbound o s hd hi hr
      have h1 : (initializeEgl o s).2.1.display = 0 := hu.1
      have h2 : (initializeEgl o s).2.1.surface = 0 := hu.2.1
      simp [h1, h2]
    · have hb := initializeEgl_success_bound o s hr
      simp [hb.1, hb.2.1]
  · rw [processMessage_exit o s hm]

/-- Where C4 does hold: from a state whose display and surface handles are set
together or null together, on every pass that does not leave `initialize()`
through one of its two early failure exits, a surface bound after command
processing gives exactly one `drawFrame()` followed by one `eglSwapBuffers` and
`_angle` plus 1.2, no surface bound gives neither and `_angle` unchanged, and
the handles are again set together or null together after the pass. -/
theorem frame_tracks_surface_outside_early_exits (o : EglOutcome) (swapOk : Bool)
    (s : Renderer F) (hsync : s.display = 0 ↔ s.surface = 0)
    (hpath : s._msg = MSG_WINDOW_SET → o.getDisplay ≠ 0 ∧ o.initializeOk = true) :
    ((processMessage o s).1.surface ≠ EGL_NO_SURFACE →
      (loopBody o swapOk s).2.filter (fun e => e.isDrawFrame || e.isSwapBuffers) =
        [Event.callDrawFrame,
         Event.eglSwapBuffers (processMessage o s).1.display (processMessage o s).1.surface] ∧
      (loopBody o swapOk s).1._angle = s._angle + 1.2) ∧
    ((processMessage o s).1.surface = EGL_NO_SURFACE →
      (loopBody o swapOk s).2.filter (fun e => e.isDrawFrame || e.isSwapBuffers) = [] ∧
      (loopBody o swapOk s).1._angle = s._angle) ∧
    ((loopBody o swapOk s).1.display = 0 ↔ (loopBody o swapOk s).1.surface = 0) := by
  have hk := processMessage_keeps_sync o s hsync hpath
  have hb := loopBody_frames_by_display o swapOk s
  have hs := step_frame swapOk (processMessage o s).1
  refine ⟨?_, ?_, ?_⟩
  · intro h
    exact hb.1 (fun hd => h (hk.1 hd))
  · intro h
    exact hb.2 (hk.2 h)
  · rw [loopBody_state, hs.2.2.1, hs.2.2.2.1]
    exact hk

/-- A pass on a bound renderer with no command pending draws one frame and
advances `_angle` from 6 by 1.2. -/
theorem frame_tracks_surface_sample :
    (loopBody sampleOk true sampleBound).2.filter
        (fun e => e.isDrawFrame || e.isSwapBuffers) =
      [Event.callDrawFrame, Event.eglSwapBuffers 1 2] ∧
    (loopBody sampleOk true sampleBound).1._angle = (6 : ℚ) + 1.2 :=
  (frame_tracks_surface_outside_early_exits sampleOk true sampleBound (by decide)
    (by decide)).1 (by decide)

/-- C4, the code at a failing input: a new renderer with the running flag true,
`setWindow(7)`, `eglGetDisplay` gives display 11 and `eglInitialize` fails.
`initialize()` returns false through its early exit without `destroy()`, so
after command processing no surface is bound (`surface` is `EGL_NO_SURFACE`)
while `display` is still 11; the pass then makes one `drawFrame()` and one
`eglSwapBuffers(11, EGL_NO_SURFACE)`, and `_angle` moves, where the claim says
no frame is drawn or presented and `_angle` is unchanged. -/
theorem frame_without_surface :
    (initializeEgl sampleInitFails sampleFresh).1 = false ∧
    (processMessage sampleInitFails sampleFresh).1.surface = EGL_NO_SURFACE ∧
    (processMessage sampleInitFails sampleFresh).1.display = 11 ∧
    (processMessage sampleInitFails sampleFresh).1.renderingEnabled = true ∧
    (loopBody sampleInitFails true sampleFresh).2.filter
        (fun e => e.isDrawFrame || e.isSwapBuffers) =
      [Event.callDrawFrame, Event.eglSwapBuffers 11 EGL_NO_SURFACE] ∧
    (loopBody sampleInitFails true sampleFresh).1._angle ≠ sampleFresh._angle := by
  refine ⟨rfl, rfl, rfl, rfl, ?_, ?_⟩
  · rw [loopBody_frames, step_frames]
    rfl
  · rw [loopBody_state, step_of_display_ne _ _ (by decide)]
    simp [drawFrame, processMessage, sampleFresh, setWindow, Renderer.new, initializeEgl,
      sampleInitFails, sampleOk, EGL_NO_DISPLAY]
    norm_num

/-- C7 as stated fails: `start()` does not write the running flag. On a new
renderer whose flag is false, the flag is false after `start()` and the loop
makes no pass. -/
theorem start_leaves_flag_false :
    (start (Renderer.new 7 false : Renderer ℚ)).renderingEnabled = false ∧
    iterations [{ publishes := [Publish.setWindow 7], egl := sampleOk, swapOk := true }]
      (start (Renderer.new 7 false : Renderer ℚ)) = 0 := by
  exact ⟨rfl, rfl⟩

/-- C7, amended: `start()` leaves the running flag (and every other field) as
it is. When the flag is true at that point and no exit is pending, the loop
makes a pass for every input as long as no pass consumes
`MSG_RENDER_LOOP_EXIT`, and the pass that consumes it (the last publish before
it is `stop()`) is the last one. When the flag is false the loop makes no
pass. -/
theorem start_keeps_flag (s : Renderer F) (pre post : List IterInput) (x : IterInput) :
    start s = s ∧
    (s.renderingEnabled = true → s._msg ≠ MSG_RENDER_LOOP_EXIT →
      (∀ i ∈ pre, i.publishes.getLast? ≠ some Publish.stop) →
      iterations pre (start s) = pre.length ∧
      (x.publishes.getLast? = some Publish.stop →
        iterations (pre ++ x :: post) (start s) = pre.length + 1)) ∧
    (s.renderingEnabled = false → iterations (pre ++ x :: post) (start s) = 0) := by
  refine ⟨rfl, ?_, ?_⟩
  · intro hrun hmsg hpre
    have h := iterations_without_exit pre s hrun hmsg hpre
    refine ⟨h.1, ?_⟩
    intro hx
    have hm : (publishAll x.publishes (renderLoop pre s).1)._msg = MSG_RENDER_LOOP_EXIT := by
      rw [publishAll_msg, hx]
    have hb := (loopBody_frame x.egl x.swapOk (publishAll x.publishes (renderLoop pre s).1)).2.2
    rw [if_pos hm] at hb
    show iterations (pre ++ x :: post) s = pre.length + 1
    rw [iterations_append, h.1]
    simp [iterations, h.2.1, (renderLoop_of_stopped post _ hb).1]
  · intro hrun
    exact (renderLoop_of_stopped _ s hrun).1

/-- C7, amended, at a concrete input: flag true at `start()`, one pass after
`setWindow(7)`, then `stop()`: two passes are made, however many inputs
follow. -/
theorem start_keeps_flag_witness :
    iterations
      ([{ publishes := [Publish.setWindow 7], egl := sampleOk, swapOk := true }] ++
        { publishes := [Publish.stop], egl := sampleOk, swapOk := true } ::
        [{ publishes := [], egl := sampleOk, swapOk := true }])
      (start (Renderer.new 0 true : Renderer ℚ)) = 1 + 1 :=
  ((start_keeps_flag (Renderer.new 0 true : Renderer ℚ)
      [{ publishes := [Publish.setWindow 7], egl := sampleOk, swapOk := true }]
      [{ publishes := [], egl := sampleOk, swapOk := true }]
      { publishes := [Publish.stop], egl := sampleOk, swapOk := true }).2.1
    rfl (by decide) (by decide)).2 rfl

/-- C8 as stated fails: every EGL call succeeds and the queried surface is 0 by
0. `initialize()` returns true, makes the viewport derivation
(`glViewport(0, 0, 0, 0)` and `glFrustumf` on `0 / 0`), and leaves the surface
bound. -/
theorem zero_size_is_accepted :
    (initializeEgl sampleZeroSize sampleFresh).1 = true ∧
    Event.gl (GlCall.glViewport 0 0 0 0) ∈ (initializeEgl sampleZeroSize sampleFresh).2.2 ∧
    Event.gl (GlCall.glFrustumf (-(((0 : Int) : ℚ) / ((0 : Int) : ℚ)))
        (((0 : Int) : ℚ) / ((0 : Int) : ℚ)) (-1) 1 1 10)
      ∈ (initializeEgl sampleZeroSize sampleFresh).2.2 ∧
    (initializeEgl sampleZeroSize sampleFresh).2.1.surface = 12 ∧
    (initializeEgl sampleZeroSize sampleFresh).2.1.surface ≠ EGL_NO_SURFACE := by
  refine ⟨rfl, ?_, ?_, rfl, by decide⟩ <;>
    simp [initializeEgl, sampleZeroSize, sampleOk, sampleFresh, setWindow, Renderer.new,
      configureViewport, EGL_NO_DISPLAY]

/-- C8, amended: the queried size is not checked. For every run of
`initialize()` in which all EGL calls succeed, whatever the queried width and
height (zero and negative included), `initialize()` returns true, makes the
viewport derivation (`glViewport(0, 0, width, height)`, then `glFrustumf` on
`width / height`), and leaves the created display, surface and context
bound. -/
theorem size_is_not_checked (o : EglOutcome) (s : Renderer F) (config : Nat)
    (format width height : Int)
    (hd : o.getDisplay ≠ EGL_NO_DISPLAY) (hi : o.initializeOk = true)
    (hc : o.chooseConfig = some config) (hg : o.getConfigAttrib = some format)
    (hs : o.createWindowSurface ≠ 0) (hx : o.createContext ≠ 0)
    (hm : o.makeCurrentOk = true)
    (hw : o.queryWidth = some width) (hh : o.queryHeight = some height) :
    (initializeEgl o s).1 = true ∧
    Event.gl (GlCall.glViewport 0 0 width height) ∈ (initializeEgl o s).2.2 ∧
    Event.gl (GlCall.glFrustumf (-(((width : Int) : F) / ((height : Int) : F)))
        (((width : Int) : F) / ((height : Int) : F)) (-1) 1 1 10) ∈ (initializeEgl o s).2.2 ∧
    (initializeEgl o s).2.1 =
      { s with display := o.getDisplay, surface := o.createWindowSurface,
               context := o.createContext } ∧
    (initializeEgl o s).2.1.surface ≠ EGL_NO_SURFACE := by
  have hd0 : o.getDisplay ≠ 0 := hd
  refine ⟨?_, ?_, ?_, ?_, ?_⟩ <;>
    simp [initializeEgl, configureViewport, EGL_NO_DISPLAY, EGL_NO_SURFACE, hd0, hi, hc, hg,
      hs, hx, hm, hw, hh]

/-- C8, amended, at a concrete input: a surface of width 0 and height -5. -/
theorem size_is_not_checked_witness :
    (initializeEgl { sampleOk with queryWidth := some 0, queryHeight := some (-5) }
      sampleFresh).1 = true ∧
    Event.gl (GlCall.glViewport 0 0 0 (-5)) ∈
      (initializeEgl { sampleOk with queryWidth := some 0, queryHeight := some (-5) }
        sampleFresh).2.2 :=
  have h := size_is_not_checked
    { sampleOk with queryWidth := some 0, queryHeight := some (-5) } sampleFresh 3 1 0 (-5)
    (by decide) rfl rfl rfl (by decide) (by decide) rfl rfl rfl
  ⟨h.1, h.2.1⟩

/-- C9 as stated fails: in the pass after `setWindow(7)` on a new renderer, the
entry of `initialize()`, the entry of `drawFrame()` and the call of
`eglSwapBuffers` all fall between the pass's lock and its unlock. -/
theorem work_under_mutex :
    Event.callInitialize ∈ heldEvents false (loopBody sampleOk true sampleFresh).2 ∧
    Event.callDrawFrame ∈ heldEvents false (loopBody sampleOk true sampleFresh).2 ∧
    Event.eglSwapBuffers 11 12 ∈ heldEvents false (loopBody sampleOk true sampleFresh).2 ∧
    ¬ (∀ e ∈ heldEvents false (loopBody sampleOk true sampleFresh).2, e.isWork = false) := by
  have h1 := processMessage_enters_initialize sampleOk sampleFresh rfl
  have hd : (processMessage sampleOk sampleFresh).1.display = 11 := rfl
  have hs : (processMessage sampleOk sampleFresh).1.surface = 12 := rfl
  have h2 := step_draws true (processMessage sampleOk sampleFresh).1 (by rw [hd]; decide)
  rw [hd, hs] at h2
  rw [heldEvents_loopBody]
  refine ⟨List.mem_append_left _ h1, List.mem_append_right _ h2.1,
    List.mem_append_right _ h2.2, ?_⟩
  intro hall
  exact absurd (hall _ (List.mem_append_left _ h1)) (by decide)

/-- C9, amended: the mutex is held across the whole pass. In every pass
`pthread_mutex_lock` is the first event and `pthread_mutex_unlock` the last, no
other locking occurs in between, and everything the pass does (command
processing with its `initialize()` or `destroy()`, then `step()` with its
`drawFrame()` and `eglSwapBuffers`) falls between that lock and that unlock. -/
theorem mutex_held_whole_pass (o : EglOutcome) (swapOk : Bool) (s : Renderer F) :
    (loopBody o swapOk s).2 =
      Event.mutexLock ::
        (((processMessage o s).2 ++ (step swapOk (processMessage o s).1).2) ++
          [Event.mutexUnlock]) ∧
    (∀ e ∈ (processMessage o s).2 ++ (step swapOk (processMessage o s).1).2,
      e.isLock = false) ∧
    heldEvents false (loopBody o swapOk s).2 =
      (processMessage o s).2 ++ (step swapOk (processMessage o s).1).2 :=
  ⟨loopBody_trace o swapOk s, loopBody_mid_nolock o swapOk s, heldEvents_loopBody o swapOk s⟩

end Claims

end ModEgl
